import Mathlib

/-!
Verification of the nft-shares fungible-token example contract
(src/examples/nft-shares-fungible-token/ft/src/lib.rs).

Shallow embedding conventions:
- Rust u128 values are embedded as Nat; arithmetic is reduced modulo 2 ^ 128
  where the ambient 128-bit width truncates. Per the specification, the
  valuation arithmetic has no overflow checking beyond what the ambient
  numeric width provides, so multiplication and subtraction wrap at 128 bits.
- The external FungibleToken ledger (near_contract_standards) is embedded as a
  total balance map plus a total-supply counter; per that standard,
  ft_balance_of returns 0 for an account without a stored balance.
- Methods taking an immutable receiver are embedded as state-threading
  functions returning (result, state); the returned state is the input state,
  which is what the immutable receiver guarantees in the source.
- Panics (assert! failures) are embedded as Option/Except failure values.
-/

namespace NftShares

/-- Modulus of the ambient unsigned 128-bit integer width (Rust u128). -/
def U128_MOD : Nat := 2 ^ 128

/-- Wrapping u128 multiplication: the product truncated to 128 bits. -/
def wmul (a b : Nat) : Nat := (a * b) % U128_MOD

/-- Wrapping u128 subtraction for operands below the modulus:
a - b when b is at most a, otherwise wrapped around 2 ^ 128. -/
def wsub (a b : Nat) : Nat := (a + U128_MOD - b) % U128_MOD

/-- SharesMetadata record from shares_metadata.rs: the standard FT metadata
fields plus the shares-specific fields (nft_contract_address, nft_token_id,
share_price, released). Field list as used by lib.rs (Contract.create
populates every field; the valuation methods read share_price and released). -/
structure SharesMetadata where
  spec : String
  name : String
  symbol : String
  icon : Option String
  reference : Option String
  reference_hash : Option (List Nat)
  decimals : Nat
  nft_contract_address : String
  nft_token_id : String
  share_price : Nat
  released : Bool

/-- Modelled from the spec: shares_metadata.rs (which defines assert_valid) is
not under src; the spec lists re-initialization as the only locally-owned
initialization failure, so metadata validation is modelled as always passing. -/
def SharesMetadata.assert_valid (_md : SharesMetadata) : Bool := true

/-- Modelled from the spec: shares_metadata.rs is not under src, so the exact
value of the metadata spec-version string constant is unknown; no claim
depends on its value. -/
def SHARES_FT_METADATA_SPEC : String := "shares-ft-1.0.0"

/-- External ledger state of near_contract_standards FungibleToken: per-account
balances (0 for accounts without a stored balance, matching ft_balance_of of
the standard) and the total-supply counter. -/
structure FungibleToken where
  accounts : String → Nat
  total_supply : Nat

/-- Contract state: the borrowed FungibleToken ledger plus the shares
metadata (the LazyOption always holds the metadata after initialization,
so it is embedded as a plain field). -/
structure Contract where
  token : FungibleToken
  metadata : SharesMetadata

/-- Embeds SharesMetadataProvider.ft_metadata: self.metadata.get().unwrap(). -/
def Contract.ft_metadata (c : Contract) : SharesMetadata := c.metadata

/-- Embeds ft_total_supply of the external standard: the total-supply counter. -/
def Contract.ft_total_supply (c : Contract) : Nat := c.token.total_supply

/-- Embeds ft_balance_of of the external standard: the stored balance, or 0. -/
def Contract.ft_balance_of (c : Contract) (account : String) : Nat :=
  c.token.accounts account

/-- Embeds Contract.exit_price with its immutable receiver made explicit:
self.ft_total_supply().0 * self.ft_metadata().share_price.0 in u128. -/
def Contract.exit_price_exec (c : Contract) : Nat × Contract :=
  (wmul c.ft_total_supply c.ft_metadata.share_price, c)

/-- Result component of exit_price. -/
def Contract.exit_price (c : Contract) : Nat := c.exit_price_exec.1

/-- Embeds Contract.redeem_amount_of: asserts !released ("token already
redeemed", embedded as none), then returns
exit_price().0 - user_shares.0 * share_price.0 in u128. -/
def Contract.redeem_amount_of_exec (c : Contract) (from_ : String) :
    Option Nat × Contract :=
  (if c.ft_metadata.released then none
   else
     some (wsub c.exit_price (wmul (c.ft_balance_of from_)
       c.ft_metadata.share_price)), c)

/-- Result component of redeem_amount_of. -/
def Contract.redeem_amount_of (c : Contract) (from_ : String) : Option Nat :=
  (c.redeem_amount_of_exec from_).1

/-- Embeds Contract.vault_balance: 0 if not released, otherwise
self.ft_total_supply().0 * share_price.0 in u128. -/
def Contract.vault_balance_exec (c : Contract) : Nat × Contract :=
  (if !c.ft_metadata.released then 0
   else wmul c.ft_total_supply c.ft_metadata.share_price, c)

/-- Result component of vault_balance. -/
def Contract.vault_balance (c : Contract) : Nat := c.vault_balance_exec.1

/-- Embeds Contract.vault_balance_of: 0 if not released, otherwise
user_shares.0 * share_price.0 in u128. -/
def Contract.vault_balance_of_exec (c : Contract) (from_ : String) :
    Nat × Contract :=
  (if !c.ft_metadata.released then 0
   else wmul (c.ft_balance_of from_) c.ft_metadata.share_price, c)

/-- Result component of vault_balance_of. -/
def Contract.vault_balance_of (c : Contract) (from_ : String) : Nat :=
  (c.vault_balance_of_exec from_).1

/-- Arguments of Contract.create. -/
structure CreateArgs where
  nft_contract_address : String
  nft_token_id : String
  owner_id : String
  shares_count : Nat
  decimals : Nat
  share_price : Nat

/-- The inline SVG data URI used as the token icon (apostrophes written as
\x27 escapes; the bytes are those of the source constant). -/
def DATA_IMAGE_SVG_NEAR_ICON : String :=
  "data:image/svg+xml,%3Csvg xmlns=\x27http://www.w3.org/2000/svg\x27 viewBox=\x270 0 288 288\x27%3E%3Cg id=\x27l\x27 data-name=\x27l\x27%3E%3Cpath d=\x27M187.58,79.81l-30.1,44.69a3.2,3.2,0,0,0,4.75,4.2L191.86,103a1.2,1.2,0,0,1,2,.91v80.46a1.2,1.2,0,0,1-2.12.77L102.18,77.93A15.35,15.35,0,0,0,90.47,72.5H87.34A15.34,15.34,0,0,0,72,87.84V201.16A15.34,15.34,0,0,0,87.34,216.5h0a15.35,15.35,0,0,0,13.08-7.31l30.1-44.69a3.2,3.2,0,0,0-4.75-4.2L96.14,186a1.2,1.2,0,0,1-2-.91V104.61a1.2,1.2,0,0,1,2.12-.77l89.55,107.23a15.35,15.35,0,0,0,11.71,5.43h3.13A15.34,15.34,0,0,0,216,201.16V87.84A15.34,15.34,0,0,0,200.66,72.5h0A15.35,15.35,0,0,0,187.58,79.81Z\x27/%3E%3C/g%3E%3C/svg%3E"

/-- Embeds Contract.new: asserts !env::state_exists() ("Already initialized"),
validates the metadata, creates the empty ledger, registers the owner and
deposits the whole total supply to the owner (FungibleToken::new followed by
internal_register_account and internal_deposit of the external standard). -/
def Contract.new (state_exists : Bool) (owner_id : String) (total_supply : Nat)
    (metadata : SharesMetadata) : Except String Contract :=
  if state_exists then Except.error "Already initialized"
  else if !metadata.assert_valid then Except.error "invalid metadata"
  else Except.ok
    { token :=
        { accounts := fun a => if a = owner_id then total_supply else 0,
          total_supply := total_supply },
      metadata := metadata }

/-- Embeds Contract.create: builds the SharesMetadata record with released
initialized to false and delegates to Contract.new. -/
def Contract.create (state_exists : Bool) (args : CreateArgs) :
    Except String Contract :=
  Contract.new state_exists args.owner_id args.shares_count
    { spec := SHARES_FT_METADATA_SPEC,
      name := "Example NEAR fungible token",
      symbol := "EXAMPLE",
      icon := some DATA_IMAGE_SVG_NEAR_ICON,
      reference := none,
      reference_hash := none,
      decimals := args.decimals,
      nft_contract_address := args.nft_contract_address,
      nft_token_id := args.nft_token_id,
      share_price := args.share_price,
      released := false }

/-- Runtime semantics of an initialization call: a panicking call aborts the
transaction and leaves the persisted state untouched; a successful call
installs the freshly built state. -/
def applyInit (existing : Option Contract) (args : CreateArgs) :
    Option Contract :=
  match Contract.create existing.isSome args with
  | Except.ok c => some c
  | Except.error _ => existing

/-- One post-initialization mutating entry point. Every mutating method the
contract exposes after initialization (ft_transfer, ft_transfer_call,
ft_resolve_transfer, storage_deposit, storage_withdraw, storage_unregister,
generated by impl_fungible_token_core and impl_fungible_token_storage)
delegates to the token field of Contract; the local hooks on_account_closed
and on_tokens_burned only log. Such a call is therefore an update of the
token field that leaves the metadata field untouched. -/
def Contract.ledgerStep (c : Contract) (f : FungibleToken → FungibleToken) :
    Contract :=
  { c with token := f c.token }

/-- A sequence of post-initialization mutating entry points. -/
def Contract.ledgerSteps (c : Contract) (fs : List (FungibleToken → FungibleToken)) :
    Contract :=
  fs.foldl Contract.ledgerStep c

/-- Helper for building concrete contract states in concrete evaluations:
total supply ts, share price sp, balance map bal, released flag. -/
def mkC (ts sp : Nat) (bal : String → Nat) (released : Bool) : Contract :=
  { token := { accounts := bal, total_supply := ts },
    metadata :=
      { spec := SHARES_FT_METADATA_SPEC,
        name := "Example NEAR fungible token",
        symbol := "EXAMPLE",
        icon := none,
        reference := none,
        reference_hash := none,
        decimals := 8,
        nft_contract_address := "nft.near",
        nft_token_id := "0",
        share_price := sp,
        released := released } }

/-- Balance map giving the account alice the balance n and every other
account the balance 0. -/
def balOf (n : Nat) : String → Nat := fun a => if a = "alice" then n else 0

/-- Unfolding of exit_price: the u128 product of total supply and share
price, truncated at 128 bits. -/
theorem exit_price_eq (c : Contract) :
    c.exit_price = c.ft_total_supply * c.ft_metadata.share_price % U128_MOD :=
  rfl

/-- The exit price is always below the 128-bit modulus. -/
theorem exit_price_lt (c : Contract) : c.exit_price < U128_MOD :=
  Nat.mod_lt _ (by decide)

/-- Wrapping subtraction agrees with exact subtraction when no underflow
occurs and the minuend is in range. -/
theorem wsub_of_le (a b : Nat) (hba : b ≤ a) (ha : a < U128_MOD) :
    wsub a b = a - b := by
  unfold wsub
  have h1 : a + U128_MOD - b = U128_MOD + (a - b) := by omega
  rw [h1, Nat.add_mod_left, Nat.mod_eq_of_lt (by omega)]

/-- Ledger steps never touch the metadata field. -/
theorem ledgerSteps_metadata (c : Contract)
    (fs : List (FungibleToken → FungibleToken)) :
    (c.ledgerSteps fs).metadata = c.metadata := by
  induction fs generalizing c with
  | nil => rfl
  | cons f fs ih => exact ih (c.ledgerStep f)

/-- C1 (amended): whenever the product total_supply * share_price fits in
128 bits, exit_price() returns exactly total_supply * share_price. -/
theorem C1_exit_price_exact (c : Contract)
    (h : c.ft_total_supply * c.ft_metadata.share_price < U128_MOD) :
    c.exit_price = c.ft_total_supply * c.ft_metadata.share_price := by
  rw [exit_price_eq]
  exact Nat.mod_eq_of_lt h

/-- C1 (counterexample): at total_supply = 2 ^ 64 and share_price = 2 ^ 64
the u128 product wraps, so exit_price() is not the exact product. -/
theorem C1_counterexample :
    ¬ ((mkC (2 ^ 64) (2 ^ 64) (balOf 0) false).exit_price =
      (mkC (2 ^ 64) (2 ^ 64) (balOf 0) false).ft_total_supply *
        (mkC (2 ^ 64) (2 ^ 64) (balOf 0) false).ft_metadata.share_price) := by
  decide

/-- C1 (witness): at total_supply = 3 and share_price = 7 the product fits
and exit_price() is exactly 3 * 7. -/
theorem C1_witness :
    (mkC 3 7 (balOf 0) false).ft_total_supply *
        (mkC 3 7 (balOf 0) false).ft_metadata.share_price < U128_MOD ∧
      (mkC 3 7 (balOf 0) false).exit_price =
        (mkC 3 7 (balOf 0) false).ft_total_supply *
          (mkC 3 7 (balOf 0) false).ft_metadata.share_price :=
  ⟨by decide, C1_exit_price_exact _ (by decide)⟩

/-- C2 (amended): when released is false, the account balance is at most the
total supply and total_supply * share_price fits in 128 bits,
redeem_amount_of(a) returns exactly exit_price() - balance_of(a) *
share_price, with no truncation in the subtraction. -/
theorem C2_redeem_amount_exact (c : Contract) (a : String)
    (hr : c.ft_metadata.released = false)
    (hb : c.ft_balance_of a ≤ c.ft_total_supply)
    (ho : c.ft_total_supply * c.ft_metadata.share_price < U128_MOD) :
    c.redeem_amount_of a =
      some (c.exit_price - c.ft_balance_of a * c.ft_metadata.share_price) := by
  have hbs : c.ft_balance_of a * c.ft_metadata.share_price ≤
      c.ft_total_supply * c.ft_metadata.share_price :=
    mul_le_mul_right' hb _
  have hwm : wmul (c.ft_balance_of a) c.ft_metadata.share_price =
      c.ft_balance_of a * c.ft_metadata.share_price :=
    Nat.mod_eq_of_lt (lt_of_le_of_lt hbs ho)
  have hle : c.ft_balance_of a * c.ft_metadata.share_price ≤ c.exit_price := by
    rw [exit_price_eq, Nat.mod_eq_of_lt ho]
    exact hbs
  unfold Contract.redeem_amount_of Contract.redeem_amount_of_exec
  simp only [hr, Bool.false_eq_true, if_false]
  rw [hwm, wsub_of_le _ _ hle (exit_price_lt c)]

/-- C2 (counterexample): at total_supply = 2 ^ 64, share_price = 2 ^ 64 and
balance 1, the wrapped exit price is 0 and the returned value is not the
exact integer difference exit_price() - balance * share_price. -/
theorem C2_counterexample :
    ((mkC (2 ^ 64) (2 ^ 64) (balOf 1) false).redeem_amount_of "alice").map
        (fun n => (n : Int)) ≠
      some (((mkC (2 ^ 64) (2 ^ 64) (balOf 1) false).exit_price : Int) -
        ((mkC (2 ^ 64) (2 ^ 64) (balOf 1) false).ft_balance_of "alice" : Int) *
          ((mkC (2 ^ 64) (2 ^ 64) (balOf 1) false).ft_metadata.share_price :
            Int)) := by
  decide

/-- C2 (witness): at total_supply = 10, share_price = 5 and balance 4 the
hypotheses hold and redeem_amount_of returns exactly 50 - 20. -/
theorem C2_witness :
    (mkC 10 5 (balOf 4) false).ft_metadata.released = false ∧
      (mkC 10 5 (balOf 4) false).ft_balance_of "alice" ≤
        (mkC 10 5 (balOf 4) false).ft_total_supply ∧
      (mkC 10 5 (balOf 4) false).ft_total_supply *
          (mkC 10 5 (balOf 4) false).ft_metadata.share_price < U128_MOD ∧
      (mkC 10 5 (balOf 4) false).redeem_amount_of "alice" =
        some ((mkC 10 5 (balOf 4) false).exit_price -
          (mkC 10 5 (balOf 4) false).ft_balance_of "alice" *
            (mkC 10 5 (balOf 4) false).ft_metadata.share_price) :=
  ⟨rfl, by decide, by decide,
    C2_redeem_amount_exact _ "alice" rfl (by decide) (by decide)⟩

/-- C3: redeem_amount_of(a) fails (the assert on the released flag fires)
exactly when released is true; when released is false it returns a value. -/
theorem C3_redeem_fails_iff_released (c : Contract) (a : String) :
    c.redeem_amount_of a = none ↔ c.ft_metadata.released = true := by
  unfold Contract.redeem_amount_of Contract.redeem_amount_of_exec
  cases h : c.ft_metadata.released <;> simp [h]

/-- C4 (amended): vault_balance() is 0 whenever released is false; when
released is true and total_supply * share_price fits in 128 bits it is
exactly total_supply * share_price. -/
theorem C4_vault_balance (c : Contract) :
    (c.ft_metadata.released = false → c.vault_balance = 0) ∧
      (c.ft_metadata.released = true →
        c.ft_total_supply * c.ft_metadata.share_price < U128_MOD →
        c.vault_balance = c.ft_total_supply * c.ft_metadata.share_price) := by
  constructor
  · intro h
    simp [Contract.vault_balance, Contract.vault_balance_exec, h]
  · intro h ho
    simp only [Contract.vault_balance, Contract.vault_balance_exec, h,
      Bool.not_true, Bool.false_eq_true, if_false, wmul]
    exact Nat.mod_eq_of_lt ho

/-- C4 (counterexample): in the released state with total_supply = 2 ^ 64
and share_price = 2 ^ 64 the u128 product wraps to 0, so vault_balance()
is not total_supply * share_price. -/
theorem C4_counterexample :
    (mkC (2 ^ 64) (2 ^ 64) (balOf 0) true).vault_balance ≠
      (mkC (2 ^ 64) (2 ^ 64) (balOf 0) true).ft_total_supply *
        (mkC (2 ^ 64) (2 ^ 64) (balOf 0) true).ft_metadata.share_price := by
  decide

/-- C4 (witness): concrete unreleased and released states with a small
product, evaluating both branches. -/
theorem C4_witness :
    (mkC 3 7 (balOf 0) false).vault_balance = 0 ∧
      (mkC 3 7 (balOf 0) true).vault_balance =
        (mkC 3 7 (balOf 0) true).ft_total_supply *
          (mkC 3 7 (balOf 0) true).ft_metadata.share_price :=
  ⟨(C4_vault_balance _).1 rfl, (C4_vault_balance _).2 rfl (by decide)⟩

/-- C5 (amended): vault_balance_of(a) is 0 whenever released is false; when
released is true and balance_of(a) * share_price fits in 128 bits it is
exactly balance_of(a) * share_price. -/
theorem C5_vault_balance_of (c : Contract) (a : String) :
    (c.ft_metadata.released = false → c.vault_balance_of a = 0) ∧
      (c.ft_metadata.released = true →
        c.ft_balance_of a * c.ft_metadata.share_price < U128_MOD →
        c.vault_balance_of a =
          c.ft_balance_of a * c.ft_metadata.share_price) := by
  constructor
  · intro h
    simp [Contract.vault_balance_of, Contract.vault_balance_of_exec, h]
  · intro h ho
    simp only [Contract.vault_balance_of, Contract.vault_balance_of_exec, h,
      Bool.not_true, Bool.false_eq_true, if_false, wmul]
    exact Nat.mod_eq_of_lt ho

/-- C5 (counterexample): in the released state with balance 2 ^ 64 and
share_price = 2 ^ 64 the u128 product wraps to 0, so vault_balance_of(a)
is not balance_of(a) * share_price. -/
theorem C5_counterexample :
    (mkC (2 ^ 65) (2 ^ 64) (balOf (2 ^ 64)) true).vault_balance_of "alice" ≠
      (mkC (2 ^ 65) (2 ^ 64) (balOf (2 ^ 64)) true).ft_balance_of "alice" *
        (mkC (2 ^ 65) (2 ^ 64) (balOf (2 ^ 64)) true).ft_metadata.share_price
    := by
  decide

/-- C5 (witness): concrete unreleased and released states with a small
product, evaluating both branches. -/
theorem C5_witness :
    (mkC 9 7 (balOf 2) false).vault_balance_of "alice" = 0 ∧
      (mkC 9 7 (balOf 2) true).vault_balance_of "alice" =
        (mkC 9 7 (balOf 2) true).ft_balance_of "alice" *
          (mkC 9 7 (balOf 2) true).ft_metadata.share_price :=
  ⟨(C5_vault_balance_of _ "alice").1 rfl,
    (C5_vault_balance_of _ "alice").2 rfl (by decide)⟩

/-- C6: the four valuation methods are read-only: invoked on any state and
any account, each returns the state unchanged. -/
theorem C6_valuations_read_only (c : Contract) (a : String) :
    c.exit_price_exec.2 = c ∧ (c.redeem_amount_of_exec a).2 = c ∧
      c.vault_balance_exec.2 = c ∧ (c.vault_balance_of_exec a).2 = c :=
  ⟨rfl, rfl, rfl, rfl⟩

/-- C7: when contract state already exists, create is rejected with
"Already initialized" and the persisted state is left unchanged. -/
theorem C7_reinit_rejected (c : Contract) (args : CreateArgs) :
    Contract.create true args = Except.error "Already initialized" ∧
      applyInit (some c) args = some c :=
  ⟨rfl, rfl⟩

/-- C8: a contract produced by create keeps the share_price and decimals it
was created with across any sequence of post-initialization mutating entry
points (all of which only update the token field). -/
theorem C8_metadata_fixed (args : CreateArgs) (c : Contract)
    (h : Contract.create false args = Except.ok c)
    (fs : List (FungibleToken → FungibleToken)) :
    (c.ledgerSteps fs).metadata.share_price = args.share_price ∧
      (c.ledgerSteps fs).metadata.decimals = args.decimals := by
  rw [ledgerSteps_metadata]
  unfold Contract.create Contract.new at h
  simp only [SharesMetadata.assert_valid, Bool.not_true, Bool.false_eq_true,
    if_false, Except.ok.injEq] at h
  subst h
  exact ⟨rfl, rfl⟩

/-- Concrete arguments for evaluating create. -/
def c8args : CreateArgs :=
  { nft_contract_address := "nft.near", nft_token_id := "0",
    owner_id := "alice", shares_count := 1000, decimals := 8,
    share_price := 100 }

/-- The contract state that create builds from c8args. -/
def c8c : Contract :=
  { token :=
      { accounts := fun a => if a = "alice" then 1000 else 0,
        total_supply := 1000 },
    metadata :=
      { spec := SHARES_FT_METADATA_SPEC,
        name := "Example NEAR fungible token",
        symbol := "EXAMPLE",
        icon := some DATA_IMAGE_SVG_NEAR_ICON,
        reference := none,
        reference_hash := none,
        decimals := 8,
        nft_contract_address := "nft.near",
        nft_token_id := "0",
        share_price := 100,
        released := false } }

/-- C8 (witness): evaluating create on concrete arguments and checking the
retained metadata on the empty sequence of operations. -/
theorem C8_witness :
    Contract.create false c8args = Except.ok c8c ∧
      ((c8c.ledgerSteps []).metadata.share_price = c8args.share_price ∧
        (c8c.ledgerSteps []).metadata.decimals = c8args.decimals) :=
  ⟨rfl, C8_metadata_fixed c8args c8c rfl []⟩

/-- C9: at total_supply = 1_000_000_000_000_000 and share_price = 100_000,
exit_price() is exactly 100_000_000_000_000_000_000. -/
theorem C9_example_exit_price :
    (mkC 1000000000000000 100000 (balOf 0) false).exit_price =
      100000000000000000000 := by
  decide

/-- C10: in an unreleased state, under the ledger invariant that the account
balance is at most the total supply and assuming total_supply * share_price
fits in 128 bits, the subtrahend balance_of(a) * share_price never exceeds
exit_price(), so the subtraction inside redeem_amount_of cannot underflow. -/
theorem C10_no_underflow (c : Contract) (a : String)
    (hr : c.ft_metadata.released = false)
    (hb : c.ft_balance_of a ≤ c.ft_total_supply)
    (ho : c.ft_total_supply * c.ft_metadata.share_price < U128_MOD) :
    c.ft_balance_of a * c.ft_metadata.share_price ≤ c.exit_price := by
  rw [exit_price_eq, Nat.mod_eq_of_lt ho]
  exact mul_le_mul_right' hb _

/-- C10 (witness): the hypotheses hold and the bound is checked at
total_supply = 8, share_price = 3 and balance 2. -/
theorem C10_witness :
    (mkC 8 3 (balOf 2) false).ft_metadata.released = false ∧
      (mkC 8 3 (balOf 2) false).ft_balance_of "alice" ≤
        (mkC 8 3 (balOf 2) false).ft_total_supply ∧
      (mkC 8 3 (balOf 2) false).ft_total_supply *
          (mkC 8 3 (balOf 2) false).ft_metadata.share_price < U128_MOD ∧
      (mkC 8 3 (balOf 2) false).ft_balance_of "alice" *
          (mkC 8 3 (balOf 2) false).ft_metadata.share_price ≤
        (mkC 8 3 (balOf 2) false).exit_price :=
  ⟨rfl, by decide, by decide,
    C10_no_underflow _ "alice" rfl (by decide) (by decide)⟩

end NftShares
